import Mathlib

/-!
# Verification of the LeadParser Pro lead-acquisition pipeline

Shallow embedding of the Next.js API routes of the repository:
* the scrape route (`POST /api/scrape`): pagination loop, qualifying filter,
  deduplicating persistence into the KV store, and the scorer
  (`calculateLeadScore`);
* the export route (`GET /api/export`): CSV projection of the store;
* the stats route (`GET /api/stats`): aggregate counts;
* the frontend tier mapping (`getTier`).

JavaScript-specific behaviour is modelled explicitly: absent object fields are
`Option.none`, string truthiness (`""` and absent are falsy) is `strTruthy`,
`a || b` fallbacks are the `jsOr*` helpers, and JS numbers are `Int`/`ℚ`.
The KV store (`leads:ids` set plus `lead:<id>` keys) is an insertion-ordered
association list with unique keys, which is how the guarded
`kv.set`/`kv.sadd` calls build it.
-/

/-- JS truthiness of a possibly-absent string value: absent (`undefined`) and
the empty string are falsy, every other string is truthy. -/
def strTruthy : Option String → Bool
  | none => false
  | some s => s ≠ ""

/-- JS `a || b` for possibly-absent string values (`""` falls through). -/
def jsOrS : Option String → String → String
  | none, d => d
  | some s, d => if s = "" then d else s

/-- JS `a || b` for possibly-absent numeric (rational) values (`0` falls through). -/
def jsOrQ : Option ℚ → ℚ → ℚ
  | none, d => d
  | some q, d => if q = 0 then d else q

/-- JS `a || b` for possibly-absent non-negative integer values (`0` falls through). -/
def jsOrN : Option Nat → Nat → Nat
  | none, d => d
  | some n, d => if n = 0 then d else n

/-- JS `s.toLowerCase()` for the ASCII strings this codebase compares
(niche names): lowercase each character. -/
def strToLower (s : String) : String := String.mk (s.toList.map Char.toLower)

/-- Substring test on character lists, the semantics of JS
`haystack.includes(needle)` (the empty needle is always found). -/
def containsSub : List Char → List Char → Bool
  | hay, needle =>
    needle.isPrefixOf hay ||
      (match hay with
       | [] => false
       | _ :: t => containsSub t needle)

/-- JS `s.includes(sub)`. -/
def strIncludes (s sub : String) : Bool :=
  containsSub s.toList sub.toList

/-- The hardcoded high-value niche list of `calculateLeadScore`
(scrape route, line 62). -/
def highValueNiches : List String :=
  ["plumbers", "electricians", "roofing", "hvac", "auto detailing", "car detailing"]

/-- The fields of the merged `{...place, ...details}` object that
`calculateLeadScore` reads. -/
structure ScoreInput where
  user_ratings_total : Option Nat
  rating : Option ℚ
  website : Option String
deriving Repr, DecidableEq

/-- The scorer, scrape route lines 41-66.  Successive shadowing `let score`
bindings mirror the JS mutable accumulator; `Math.min(score, 30)` is `min`. -/
def calculateLeadScore (place : ScoreInput) (niche : String) : Int :=
  let score : Int := 0
  let reviews := place.user_ratings_total.getD 0
  let rating := place.rating.getD 0
  let score :=
    if reviews = 0 then score + 10
    else if reviews ≤ 10 then score + 8
    else if reviews ≤ 25 then score + 5
    else if reviews ≤ 50 then score + 3
    else score + 1
  let score :=
    if 0 < rating ∧ rating ≤ 3.5 then score + 9
    else if 3.5 < rating ∧ rating ≤ 4.0 then score + 4
    else score
  let score := if !strTruthy place.website then score + 3 else score
  let score :=
    if highValueNiches.any (fun n => strIncludes (strToLower niche) n) then score + 7
    else score
  min score 30

/-- Review-count term of the published scoring policy, following the spec:
0 gives +10; 1-10 gives +8; 11-25 gives +5; 26-50 gives +3; more than 50
gives +1. -/
def specReviewTerm (reviews : Nat) : Int :=
  if reviews = 0 then 10
  else if reviews ≤ 10 then 8
  else if reviews ≤ 25 then 5
  else if reviews ≤ 50 then 3
  else 1

/-- Rating term of the published scoring policy, following the spec: rating in
(0, 3.5] gives +9; rating in (3.5, 4.0] gives +4; otherwise +0. -/
def specRatingTerm (rating : ℚ) : Int :=
  if 0 < rating ∧ rating ≤ 3.5 then 9
  else if 3.5 < rating ∧ rating ≤ 4.0 then 4
  else 0

/-- Website term of the published scoring policy, following the spec:
no website gives +3. -/
def specWebsiteTerm (website : Option String) : Int :=
  if !strTruthy website then 3 else 0

/-- Niche term of the published scoring policy, following the spec: niche
matching the high-value list case-insensitively by substring gives +7. -/
def specNicheTerm (niche : String) : Int :=
  if highValueNiches.any (fun n => strIncludes (strToLower niche) n) then 7 else 0

/-- The frontend tier badge, frontend component lines 287-291. -/
structure Tier where
  label : String
  color : String
  bg : String
deriving Repr, DecidableEq

/-- `getTier`, frontend component lines 287-291: HOT at 18 or above, WARM at
12 or above, MED otherwise. -/
def getTier (score : Int) : Tier :=
  if score ≥ 18 then ⟨"HOT", "#ef4444", "rgba(239,68,68,0.2)"⟩
  else if score ≥ 12 then ⟨"WARM", "#f59e0b", "rgba(245,158,11,0.2)"⟩
  else ⟨"MED", "#60a5fa", "rgba(59,130,246,0.2)"⟩

set_option maxHeartbeats 1000000 in
/-- **C1.** For every input, the scorer computes exactly the sum of the four
published terms (review count, rating, website presence, high-value niche)
clamped at 30, and its result always lies in the interval [0, 30]. -/
theorem C1_scorer_terms_and_range (place : ScoreInput) (niche : String) :
    calculateLeadScore place niche =
      min (specReviewTerm (place.user_ratings_total.getD 0)
            + specRatingTerm (place.rating.getD 0)
            + specWebsiteTerm place.website
            + specNicheTerm niche) 30
    ∧ 0 ≤ calculateLeadScore place niche ∧ calculateLeadScore place niche ≤ 30 := by
  simp only [calculateLeadScore, specReviewTerm, specRatingTerm, specWebsiteTerm, specNicheTerm]
  refine ⟨?_, ?_, ?_⟩ <;> split_ifs <;> omega

/-- **C7.** The concrete scenario: niche `plumbers`, 5 reviews, rating 3.2, no
website scores exactly 27 = 8 + 9 + 3 + 7, and 27 is in the HOT tier. -/
theorem C7_plumbers_scenario :
    calculateLeadScore ⟨some 5, some 3.2, none⟩ "plumbers" = 27
    ∧ (getTier 27).label = "HOT" := by
  refine ⟨?_, by decide⟩
  norm_num [calculateLeadScore, strTruthy]
  decide

/-- A Google Places text-search result, with the fields the scrape route
reads.  Absent JSON keys are `none`. -/
structure Place where
  place_id : String
  name : String
  rating : Option ℚ := none
  user_ratings_total : Option Nat := none
  formatted_address : Option String := none
  url : Option String := none
  website : Option String := none
deriving Repr, DecidableEq

/-- The `result` object of a place-details response (the fields requested at
scrape route line 111). -/
structure DetailsResult where
  name : Option String := none
  formatted_phone_number : Option String := none
  website : Option String := none
  formatted_address : Option String := none
  rating : Option ℚ := none
  user_ratings_total : Option Nat := none
  url : Option String := none
  vicinity : Option String := none
deriving Repr, DecidableEq

/-- A place-details response: status plus result object. -/
structure DetailsResponse where
  status : String
  result : DetailsResult := {}
deriving Repr, DecidableEq

/-- A persisted lead record, scrape route lines 122-136. -/
structure Lead where
  id : String
  name : String
  phone : String
  niche : String
  city : String
  state : String
  address : String
  rating : ℚ
  review_count : Nat
  gmb_link : String
  website : String
  lead_score : Int
  date_added : String
deriving Repr, DecidableEq

/-- The KV store: the `leads:ids` set together with the `lead:<id>` values,
as an insertion-ordered association list (the guarded `kv.set`/`kv.sadd`
pair only ever appends a fresh id). -/
abbrev Store := List (String × Lead)

/-- `kv.get('lead:' + id)`. -/
def kvGet (st : Store) (id : String) : Option Lead :=
  (st.find? (fun p => p.1 == id)).map (fun p => p.2)

/-- The request parameters and external world of one scrape run: the
place-details endpoint keyed by `place_id`, the requested niche/city/state,
and today's date (for `date_added`). -/
structure Env where
  details : String → DetailsResponse
  niche : String
  city : String
  state : String
  today : String

/-- The fields of the merged `{...place, ...details}` object (scrape route
line 138) that the scorer reads.  A key present in `details` overrides the
same key of `place`; JSON-parsed objects have no keys holding `undefined`,
so spread-override is `Option.orElse`. -/
def mergedScoreInput (pl : Place) (d : DetailsResult) : ScoreInput where
  user_ratings_total := d.user_ratings_total <|> pl.user_ratings_total
  rating := d.rating <|> pl.rating
  website := d.website <|> pl.website

/-- The lead object built at scrape route lines 122-138 (including the
`lead_score` assignment).  The `phone` field is read directly from the
details (the qualifying guard has already ensured it is a truthy string, so
`getD ""` never supplies the default on the persisting path). -/
def mkLead (env : Env) (pl : Place) (d : DetailsResult) : Lead where
  id := pl.place_id
  name := jsOrS d.name pl.name
  phone := d.formatted_phone_number.getD ""
  niche := env.niche
  city := env.city
  state := env.state
  address := jsOrS d.formatted_address (jsOrS d.vicinity (jsOrS pl.formatted_address ""))
  rating := jsOrQ d.rating (jsOrQ pl.rating 0)
  review_count := jsOrN d.user_ratings_total (jsOrN pl.user_ratings_total 0)
  gmb_link := jsOrS d.url (jsOrS pl.url ("https://www.google.com/maps/place/?q=place_id:" ++ pl.place_id))
  website := ""
  lead_score := calculateLeadScore (mergedScoreInput pl d) env.niche
  date_added := env.today

/-- The duplicate-check-then-persist block, scrape route lines 140-147: read
`lead:<id>`; only when absent, push the lead and write it to the store.
The Boolean result is `true` exactly when an insertion happened. -/
def upsertLead (st : Store) (l : Lead) : Store × Bool :=
  match kvGet st l.id with
  | some _ => (st, false)
  | none => (st ++ [(l.id, l)], true)

/-- Processing of one text-search result, scrape route lines 108-153 (the
`leads.length >= limit` break is applied by the page loop, outside this
block): fetch details; when the details call succeeds and the candidate has
no website but has a phone, build the lead and persist it unless its id is
already stored. -/
def processPlace (env : Env) (st : Store) (acc : List Lead) (pl : Place) :
    Store × List Lead :=
  let dres := env.details pl.place_id
  if dres.status = "OK" then
    let d := dres.result
    if !strTruthy d.website && strTruthy d.formatted_phone_number then
      let lead := mkLead env pl d
      let r := upsertLead st lead
      if r.2 then (r.1, acc ++ [lead]) else (r.1, acc)
    else (st, acc)
  else (st, acc)

/-- **C2.** The qualifying filter: a candidate is persisted only when its
details carry a truthy (non-empty) phone and a falsy (absent or empty)
website; with `website = ""` and phone `"555-1234"` (details OK, id fresh)
the candidate is persisted; with `website = "http://x.com"` nothing is
persisted, regardless of phone. -/
theorem C2_qualifying_filter (env : Env) (st : Store) (acc : List Lead) (pl : Place) :
    ((processPlace env st acc pl).2 ≠ acc →
      strTruthy (env.details pl.place_id).result.formatted_phone_number = true ∧
      strTruthy (env.details pl.place_id).result.website = false) ∧
    ((env.details pl.place_id).status = "OK" →
      (env.details pl.place_id).result.website = some "" →
      (env.details pl.place_id).result.formatted_phone_number = some "555-1234" →
      kvGet st pl.place_id = none →
      (processPlace env st acc pl).2 = acc ++ [mkLead env pl (env.details pl.place_id).result]) ∧
    ((env.details pl.place_id).result.website = some "http://x.com" →
      processPlace env st acc pl = (st, acc)) := by
  refine ⟨?_, ?_, ?_⟩
  · intro h
    by_cases h1 : (env.details pl.place_id).status = "OK"
    · by_cases h2 : (!strTruthy (env.details pl.place_id).result.website &&
          strTruthy (env.details pl.place_id).result.formatted_phone_number) = true
      · rw [Bool.and_eq_true, Bool.not_eq_true'] at h2
        exact ⟨h2.2, h2.1⟩
      · simp only [processPlace, h1, if_true, h2, if_false] at h
        exact absurd rfl h
    · simp only [processPlace, h1, if_false] at h
      exact absurd rfl h
  · intro h1 hw hp hfresh
    have hid : (mkLead env pl (env.details pl.place_id).result).id = pl.place_id := rfl
    simp only [processPlace, h1, if_true, hw, hp, strTruthy, upsertLead, hid, hfresh]
    simp
  · intro hw
    simp only [processPlace, hw, strTruthy]
    split_ifs <;> simp_all

/-- Details of a candidate with no website and a phone (qualifies). -/
def dYes : DetailsResult := { website := some "", formatted_phone_number := some "555-1234" }

/-- Environment whose details endpoint always reports `dYes`. -/
def envYes : Env :=
  { details := fun _ => { status := "OK", result := dYes },
    niche := "plumbers", city := "Houston", state := "TX", today := "2026-10-12" }

/-- A discovered candidate for the qualifying case. -/
def plYes : Place := { place_id := "pidY", name := "Yes Co" }

/-- Details of a candidate with a website (never qualifies). -/
def dNo : DetailsResult := { website := some "http://x.com", formatted_phone_number := some "555-9999" }

/-- Environment whose details endpoint always reports `dNo`. -/
def envNo : Env := { envYes with details := fun _ => { status := "OK", result := dNo } }

/-- A discovered candidate for the non-qualifying case. -/
def plNo : Place := { place_id := "pidN", name := "No Co" }

/-- Witness for C2 at concrete inputs. -/
theorem C2_qualifying_filter_witness :
    (processPlace envYes [] [] plYes).2 = [] ++ [mkLead envYes plYes dYes] ∧
    processPlace envNo [] [] plNo = ([], []) :=
  ⟨(C2_qualifying_filter envYes [] [] plYes).2.1 rfl rfl rfl rfl,
   (C2_qualifying_filter envNo [] [] plNo).2.2 rfl⟩

/-- Details (no website, has phone) shared by the two same-name candidates. -/
def dC3 : DetailsResult := { website := none, formatted_phone_number := some "555-0001" }

/-- One run's environment for the identity-key analysis. -/
def envC3 : Env :=
  { details := fun _ => { status := "OK", result := dC3 },
    niche := "plumbers", city := "Houston", state := "TX", today := "2026-10-12" }

/-- A business named Joes Plumbing under source-local id `src-id-A`. -/
def plA : Place := { place_id := "src-id-A", name := "Joes Plumbing" }

/-- The same business name and city under a different source-local id. -/
def plB : Place := { place_id := "src-id-B", name := "Joes Plumbing" }

/-- **C3, counterexample.** Two candidates with the identical business name,
processed in the same run (hence the same city), are persisted under the two
distinct raw source ids `src-id-A` and `src-id-B`: the identity key is the
raw source-local identifier, not a function — hashed or otherwise — of
(normalized name, normalized city). -/
theorem C3_counterexample :
    plA.name = plB.name ∧
    ((processPlace envC3
        (processPlace envC3 [] [] plA).1 (processPlace envC3 [] [] plA).2 plB).1.map
      Prod.fst) = ["src-id-A", "src-id-B"] ∧
    "src-id-A" ≠ "src-id-B" := by
  refine ⟨rfl, ?_, by decide⟩
  decide

/-- **C3, amended.** Whenever a candidate is persisted, it is stored under the
raw source-local identifier `place_id` as its identity key, appended to the
store; the persisted lead's `id` field is that same raw identifier. -/
theorem C3_amended_key_is_place_id (env : Env) (st : Store) (acc : List Lead)
    (pl : Place)
    (h1 : (env.details pl.place_id).status = "OK")
    (h2 : (!strTruthy (env.details pl.place_id).result.website &&
           strTruthy (env.details pl.place_id).result.formatted_phone_number) = true)
    (h3 : kvGet st pl.place_id = none) :
    (processPlace env st acc pl).1 =
      st ++ [(pl.place_id, mkLead env pl (env.details pl.place_id).result)] ∧
    (mkLead env pl (env.details pl.place_id).result).id = pl.place_id := by
  refine ⟨?_, rfl⟩
  have hid : (mkLead env pl (env.details pl.place_id).result).id = pl.place_id := rfl
  simp only [processPlace, h1, if_true, h2, upsertLead, hid, h3]

/-- Witness for the amended C3 at concrete inputs. -/
theorem C3_amended_key_is_place_id_witness :
    (processPlace envC3 [] [] plA).1 = [] ++ [("src-id-A", mkLead envC3 plA dC3)] ∧
    (mkLead envC3 plA dC3).id = "src-id-A" :=
  C3_amended_key_is_place_id envC3 [] [] plA rfl (by decide) rfl

/-- Reading a key that is absent from `st` finds the value appended for it. -/
theorem kvGet_append_self (st : Store) (k : String) (v : Lead)
    (h : kvGet st k = none) : kvGet (st ++ [(k, v)]) k = some v := by
  simp only [kvGet, Option.map_eq_none'] at h
  simp [kvGet, List.find?_append, h]

/-- **C4.** Upserting a lead whose identity key is already stored leaves the
store unchanged and reports a duplicate, not an insertion; upserting the same
identity key twice stores exactly one lead, and the first write wins (the
stored value is still the first lead). -/
theorem C4_dedup_first_write_wins (st : Store) (l l2 : Lead)
    (hid : l2.id = l.id) (hfresh : kvGet st l.id = none) :
    (upsertLead st l).2 = true ∧
    (upsertLead (upsertLead st l).1 l2).1 = (upsertLead st l).1 ∧
    (upsertLead (upsertLead st l).1 l2).2 = false ∧
    ((upsertLead st l).1.filter (fun p => p.1 == l.id)).length = 1 ∧
    kvGet (upsertLead (upsertLead st l).1 l2).1 l.id = some l := by
  have h1 : upsertLead st l = (st ++ [(l.id, l)], true) := by
    simp [upsertLead, hfresh]
  have h2 : kvGet (st ++ [(l.id, l)]) l2.id = some l := by
    rw [hid]; exact kvGet_append_self st l.id l hfresh
  have h3 : upsertLead (st ++ [(l.id, l)]) l2 = (st ++ [(l.id, l)], false) := by
    simp [upsertLead, h2]
  have hnil : st.filter (fun p => p.1 == l.id) = [] := by
    simp only [kvGet, Option.map_eq_none'] at hfresh
    rw [List.filter_eq_nil_iff]
    intro a ha
    exact List.find?_eq_none.mp hfresh a ha
  refine ⟨by rw [h1], by rw [h1, h3], by rw [h1, h3], ?_, ?_⟩
  · rw [h1]
    simp [List.filter_append, hnil]
  · rw [h1, h3]
    exact kvGet_append_self st l.id l hfresh

/-- A concrete stored lead for the C4 witness. -/
def leadW : Lead :=
  { id := "k1", name := "First", phone := "555-1111", niche := "plumbers",
    city := "Houston", state := "TX", address := "", rating := 0,
    review_count := 0, gmb_link := "", website := "", lead_score := 20,
    date_added := "2026-10-12" }

/-- A re-discovery of the same identity with different data. -/
def leadW2 : Lead := { leadW with name := "Second" }

/-- Witness for C4 at concrete inputs. -/
theorem C4_dedup_first_write_wins_witness :
    (upsertLead [] leadW).2 = true ∧
    (upsertLead (upsertLead [] leadW).1 leadW2).1 = (upsertLead [] leadW).1 ∧
    (upsertLead (upsertLead [] leadW).1 leadW2).2 = false ∧
    ((upsertLead [] leadW).1.filter (fun p => p.1 == leadW.id)).length = 1 ∧
    kvGet (upsertLead (upsertLead [] leadW).1 leadW2).1 leadW.id = some leadW :=
  C4_dedup_first_write_wins [] leadW leadW2 rfl rfl

/-- JS `(x || '').toString()` for an integer value: `0` is falsy and renders
as the empty string. -/
def intToJs (i : Int) : String := if i = 0 then "" else toString i

/-- JS `(x || '').toString()` for a non-negative integer value. -/
def natToJs (n : Nat) : String := if n = 0 then "" else toString n

/-- JS `(x || '').toString()` for a rating value: `0` is falsy and renders as
the empty string; Google ratings are non-negative multiples of 0.1, which JS
renders without a trailing `.0` for whole numbers. -/
def ratToJs (q : ℚ) : String :=
  if q = 0 then ""
  else
    let n : Nat := (q.num * 10 / q.den).toNat
    if n % 10 = 0 then toString (n / 10)
    else toString (n / 10) ++ "." ++ toString (n % 10)

/-- `(lead[h] || '').toString()` for a header name `h` (export route
line 23); an unknown key reads `undefined`, which renders as `''`. -/
def leadField (l : Lead) (h : String) : String :=
  if h = "name" then l.name
  else if h = "phone" then l.phone
  else if h = "niche" then l.niche
  else if h = "city" then l.city
  else if h = "state" then l.state
  else if h = "address" then l.address
  else if h = "rating" then ratToJs l.rating
  else if h = "review_count" then natToJs l.review_count
  else if h = "lead_score" then intToJs l.lead_score
  else if h = "gmb_link" then l.gmb_link
  else if h = "website" then l.website
  else if h = "date_added" then l.date_added
  else ""

/-- JS `.replace(/"/g, '\\"')`: every double quote becomes backslash-quote. -/
def escapeQuotes (s : String) : String :=
  String.mk (List.flatten (s.toList.map (fun c => if c = '"' then ['\\', '"'] else [c])))

/-- The export route's fixed header list (export route line 20). -/
def exportHeaders : List String :=
  ["name", "phone", "niche", "city", "state", "address", "rating",
   "review_count", "lead_score", "gmb_link"]

/-- One quoted, escaped CSV cell (export route line 23). -/
def csvCell (l : Lead) (h : String) : String :=
  "\"" ++ escapeQuotes (leadField l h) ++ "\""

/-- One CSV data row (export route line 23). -/
def csvRow (l : Lead) : String :=
  String.intercalate "," (exportHeaders.map (csvCell l))

/-- The leads collected by the export loop (export route lines 6-14): each id
of `leads:ids` in store order, its value read back and kept when present. -/
def exportLeads (st : Store) : List Lead :=
  (st.map Prod.fst).filterMap (fun id => kvGet st id)

/-- The JS stable `Array.prototype.sort` with comparator
`(b.lead_score || 0) - (a.lead_score || 0)` (export route line 17): a stable
sort placing higher scores first and keeping the store's enumeration order
between equal scores.  A stable sort for a total preorder is unique, so
insertion sort gives the same list the engine's stable sort does. -/
def sortLeads (l : List Lead) : List Lead :=
  List.insertionSort (fun a b => b.lead_score ≤ a.lead_score) l

/-- The rows of the export, in output order. -/
def exportRows (st : Store) : List Lead := sortLeads (exportLeads st)

/-- The CSV text built at export route lines 21-24. -/
def exportCSV (st : Store) : String :=
  String.intercalate "\n"
    (String.intercalate "," exportHeaders :: (exportRows st).map csvRow)

/-- The whole `GET /api/export` handler as a store transformer: it performs
only reads (`kv.smembers`, `kv.get`), so the store component is returned
unchanged. -/
def exportRoute (st : Store) : String × Store := (exportCSV st, st)

/-- A stored lead with score 20 and identity key `a`. -/
def leadTieA : Lead := { leadW with id := "a", name := "Alpha" }

/-- A stored lead with the same score 20 and identity key `b`. -/
def leadTieB : Lead := { leadW with id := "b", name := "Beta" }

/-- A store that enumerates `b` before `a` (discovery order). -/
def tieStore : Store := [("b", leadTieB), ("a", leadTieA)]

/-- **C5, counterexample.** With two equal-score leads stored in enumeration
order `b`, `a`, the export emits the rows in that order — identity key
descending — so ties are not broken by identity key ascending. -/
theorem C5_counterexample :
    exportRows tieStore = [leadTieB, leadTieA] ∧
    leadTieA.lead_score = leadTieB.lead_score ∧
    leadTieA.id < leadTieB.id := by
  refine ⟨by decide, rfl, ?_⟩
  rw [String.lt_iff_toList_lt]
  decide

/-- The export comparator is total. -/
instance : IsTotal Lead (fun a b => b.lead_score ≤ a.lead_score) :=
  ⟨fun a b => le_total b.lead_score a.lead_score⟩

/-- The export comparator is transitive. -/
instance : IsTrans Lead (fun a b => b.lead_score ≤ a.lead_score) :=
  ⟨fun _ _ _ h1 h2 => le_trans h2 h1⟩

/-- **C5, amended.** The export handler never mutates the store; running it
twice on the unchanged store yields byte-identical output; its rows are
ordered by lead_score descending, with ties kept in the store's enumeration
order (a stable sort — not broken by identity key); and the rows are exactly
the collected stored leads, reordered. -/
theorem C5_amended_export_pure_sorted (st : Store) :
    (exportRoute st).2 = st ∧
    (exportRoute (exportRoute st).2).1 = (exportRoute st).1 ∧
    List.Sorted (fun a b => b.lead_score ≤ a.lead_score) (exportRows st) ∧
    (exportRows st).Perm (exportLeads st) :=
  ⟨rfl, rfl, List.sorted_insertionSort _ _, List.perm_insertionSort _ _⟩

/-- **C6, counterexample.** The export's header row is not the claimed
11-field list: `date_added` is absent. -/
theorem C6_counterexample :
    exportHeaders ≠
      ["name", "phone", "niche", "city", "state", "address", "rating",
       "review_count", "lead_score", "gmb_link", "date_added"] := by
  decide

/-- A stored lead whose name embeds double quotes. -/
def demoLead : Lead :=
  { id := "x1", name := "Joe \"Big\" Plumbing", phone := "555-1234",
    niche := "plumbers", city := "Houston", state := "TX",
    address := "1 Main St", rating := 4, review_count := 12,
    gmb_link := "http://maps.example/x1", website := "",
    lead_score := 15, date_added := "2026-10-12" }

/-- **C6, amended.** The header row is exactly the ten fields name, phone,
niche, city, state, address, rating, review_count, lead_score, gmb_link (no
`date_added`); every data-row field is wrapped in double quotes with embedded
double quotes escaped by a preceding backslash, as the concrete row for
`demoLead` shows. -/
theorem C6_amended_headers_and_quoting :
    exportHeaders = ["name", "phone", "niche", "city", "state", "address",
      "rating", "review_count", "lead_score", "gmb_link"] ∧
    (∀ l : Lead, csvRow l =
      String.intercalate ","
        (exportHeaders.map (fun h => "\"" ++ escapeQuotes (leadField l h) ++ "\""))) ∧
    (∀ st : Store, exportCSV st =
      String.intercalate "\n"
        (String.intercalate "," exportHeaders :: (exportRows st).map csvRow)) ∧
    csvRow demoLead =
      "\"Joe \\\"Big\\\" Plumbing\",\"555-1234\",\"plumbers\",\"Houston\",\"TX\",\"1 Main St\",\"4\",\"12\",\"15\",\"http://maps.example/x1\"" := by
  refine ⟨rfl, fun l => rfl, fun st => rfl, ?_⟩
  decide

/-- One page of the text-search response (`data` at scrape route line 97).
`data.results || []` is an explicit list; an absent `next_page_token` is
`none`. -/
structure Page where
  status : String
  results : List Place := []
  next_page_token : Option String := none

/-- The `for (const place of data.results || [])` loop, scrape route lines
105-153: each place is processed by `processPlace`, and the loop breaks as
soon as `leads.length >= limit` (line 106). -/
def processResults (env : Env) (limit : Nat) :
    List Place → Store → List Lead → Store × List Lead
  | [], st, acc => (st, acc)
  | pl :: rest, st, acc =>
    if limit ≤ acc.length then (st, acc)
    else
      let sa := processPlace env st acc pl
      processResults env limit rest sa.1 sa.2

/-- Increment the page-fetch counter of a loop result. -/
def bumpFetch : Store × List Lead × Nat → Store × List Lead × Nat
  | (st, acc, n) => (st, acc, n + 1)

/-- `bumpFetch` keeps the collected leads. -/
theorem bumpFetch_snd_fst (x : Store × List Lead × Nat) :
    (bumpFetch x).2.1 = x.2.1 := by
  rcases x with ⟨a, b, c⟩; rfl

/-- `bumpFetch` adds one fetch. -/
theorem bumpFetch_snd_snd (x : Store × List Lead × Nat) :
    (bumpFetch x).2.2 = x.2.2 + 1 := by
  rcases x with ⟨a, b, c⟩; rfl

/-- The `do ... while` pagination loop, scrape route lines 88-163.
`source i` is the i-th text-search page response and `attempts` the counter
incremented at line 156; the third result component counts page fetches.  On
a status other than `OK` or `ZERO_RESULTS` the loop breaks (lines 99-102),
returning the leads collected so far.  The loop continues only while a
next-page token is truthy, fewer than `limit` leads are collected, and the
incremented `attempts` is below `maxAtt` (line 163); the JS locals `data` and
`leads` are re-mentions of the same pure calls here. -/
def scrapeGo (env : Env) (source : Nat → Page) (limit maxAtt : Nat)
    (i attempts : Nat) (st : Store) (acc : List Lead) : Store × List Lead × Nat :=
  if (source i).status = "OK" ∨ (source i).status = "ZERO_RESULTS" then
    if h : strTruthy (source i).next_page_token = true ∧
        (processResults env limit (source i).results st acc).2.length < limit ∧
        attempts + 1 < maxAtt then
      bumpFetch (scrapeGo env source limit maxAtt (i + 1) (attempts + 1)
        (processResults env limit (source i).results st acc).1
        (processResults env limit (source i).results st acc).2)
    else ((processResults env limit (source i).results st acc).1,
          (processResults env limit (source i).results st acc).2, 1)
  else (st, acc, 1)
termination_by maxAtt - attempts
decreasing_by omega

/-- The whole pagination phase of `POST /api/scrape` (scrape route lines
82-163): `maxAttempts = Math.ceil(limit / 20)`, starting from page 0 with
`attempts = 0`, an empty run accumulator, and the pre-existing store. -/
def scrape (env : Env) (source : Nat → Page) (limit : Nat) (st : Store) :
    Store × List Lead × Nat :=
  scrapeGo env source limit ((limit + 19) / 20) 0 0 st []

/-- **C8.** When a page response has a status other than `OK` or
`ZERO_RESULTS`, the loop stops paginating immediately (one fetch, no
retry) and still returns the store and candidates already collected,
unchanged and undiscarded. -/
theorem C8_abort_on_error_keeps_partial (env : Env) (source : Nat → Page)
    (limit maxAtt i attempts : Nat) (st : Store) (acc : List Lead)
    (h1 : (source i).status ≠ "OK") (h2 : (source i).status ≠ "ZERO_RESULTS") :
    scrapeGo env source limit maxAtt i attempts st acc = (st, acc, 1) := by
  unfold scrapeGo
  rw [if_neg]
  push_neg
  exact ⟨h1, h2⟩

/-- Env for the pagination witnesses (the details endpoint reports nothing
qualifying, which the loop theorems do not depend on). -/
def envLoop : Env :=
  { details := fun _ => { status := "OK" },
    niche := "plumbers", city := "Houston", state := "TX", today := "2026-10-12" }

/-- A source whose every page is a server-side error. -/
def badSource : Nat → Page := fun _ => { status := "REQUEST_DENIED" }

/-- Witness for C8: one already-collected lead survives the aborted
pagination. -/
theorem C8_abort_on_error_keeps_partial_witness :
    scrapeGo envLoop badSource 100 5 0 0 [] [leadW] = ([], [leadW], 1) :=
  C8_abort_on_error_keeps_partial envLoop badSource 100 5 0 0 [] [leadW]
    (by decide) (by decide)

/-- `processPlace` appends at most one lead to the run accumulator. -/
theorem processPlace_length_le (env : Env) (st : Store) (acc : List Lead)
    (pl : Place) : (processPlace env st acc pl).2.length ≤ acc.length + 1 := by
  simp only [processPlace]
  split_ifs <;> simp [List.length_append]

/-- The in-page loop never pushes the accumulator beyond `limit`. -/
theorem processResults_length_le (env : Env) (limit : Nat) (places : List Place) :
    ∀ st acc, acc.length ≤ limit →
      (processResults env limit places st acc).2.length ≤ limit := by
  induction places with
  | nil => intro st acc h; exact h
  | cons pl rest ih =>
    intro st acc h
    unfold processResults
    split_ifs with hlim
    · exact h
    · have := processPlace_length_le env st acc pl
      exact ih _ _ (by omega)

/-- The pagination loop never collects more than `limit` leads. -/
theorem scrapeGo_length_le (env : Env) (source : Nat → Page) (limit maxAtt : Nat) :
    ∀ fuel i attempts st acc, maxAtt - attempts ≤ fuel → acc.length ≤ limit →
      (scrapeGo env source limit maxAtt i attempts st acc).2.1.length ≤ limit := by
  intro fuel
  induction fuel with
  | zero =>
    intro i attempts st acc hf hacc
    unfold scrapeGo
    split_ifs with h1 h2
    · exact absurd h2.2.2 (by omega)
    · exact processResults_length_le env limit _ _ _ hacc
    · exact hacc
  | succ fuel ih =>
    intro i attempts st acc hf hacc
    unfold scrapeGo
    split_ifs with h1 h2
    · rw [bumpFetch_snd_fst]
      exact ih _ _ _ _ (by omega) (processResults_length_le env limit _ _ _ hacc)
    · exact processResults_length_le env limit _ _ _ hacc
    · exact hacc

/-- The pagination loop fetches at most `maxAtt - attempts` pages when the
counter is still below the cap. -/
theorem scrapeGo_fetches_le (env : Env) (source : Nat → Page) (limit maxAtt : Nat) :
    ∀ fuel i attempts st acc, maxAtt - attempts ≤ fuel → attempts < maxAtt →
      (scrapeGo env source limit maxAtt i attempts st acc).2.2 ≤ maxAtt - attempts := by
  intro fuel
  induction fuel with
  | zero => intro i attempts st acc hf hlt; omega
  | succ fuel ih =>
    intro i attempts st acc hf hlt
    unfold scrapeGo
    split_ifs with h1 h2
    · rw [bumpFetch_snd_snd]
      have := ih (i + 1) (attempts + 1)
        (processResults env limit (source i).results st acc).1
        (processResults env limit (source i).results st acc).2
        (by omega) h2.2.2
      omega
    · show (1 : Nat) ≤ maxAtt - attempts
      omega
    · show (1 : Nat) ≤ maxAtt - attempts
      omega

/-- **C9.** For every source-response sequence — even one that returns a
next-page token forever — the scrape loop terminates (it is a total function
of its fuel `maxAtt - attempts`), returns at most `limit` leads, and fetches
at most `ceil(limit / 20)` pages. -/
theorem C9_scrape_terminates_bounded (env : Env) (source : Nat → Page)
    (limit : Nat) (st : Store) (h : 0 < limit) :
    (scrape env source limit st).2.1.length ≤ limit ∧
    (scrape env source limit st).2.2 ≤ (limit + 19) / 20 := by
  constructor
  · exact scrapeGo_length_le env source limit _ _ 0 0 st [] (le_refl _) (by simp)
  · have := scrapeGo_fetches_le env source limit ((limit + 19) / 20)
      ((limit + 19) / 20) 0 0 st [] (le_refl _) (by omega)
    simpa using this

/-- A source that always hands out another page token. -/
def endlessSource : Nat → Page := fun _ =>
  { status := "OK", results := [], next_page_token := some "tok" }

/-- Witness for C9 against a source that paginates forever. -/
theorem C9_scrape_terminates_bounded_witness :
    0 < 40 ∧
    ((scrape envLoop endlessSource 40 []).2.1.length ≤ 40 ∧
     (scrape envLoop endlessSource 40 []).2.2 ≤ (40 + 19) / 20) :=
  ⟨by decide, C9_scrape_terminates_bounded envLoop endlessSource 40 [] (by decide)⟩

/-- The JSON body returned by `GET /api/stats`. -/
structure StatsOut where
  total : Nat
  hot : Nat
  warm : Nat
  new_this_session : Nat
deriving Repr, DecidableEq

/-- The counting loop of `GET /api/stats` (stats route lines 18-30): for each
stored id, read the lead back; when present, count it, count `hot` at score
18 or above, else `warm` at 12 or above, and `newToday` when `date_added`
matches today (`lead.lead_score || 0` is the identity on these integer
scores, since `0 || 0` is `0`). -/
def statsLoop (st : Store) (today : String) : List String → StatsOut → StatsOut
  | [], out => out
  | id :: rest, out =>
    match kvGet st id with
    | none => statsLoop st today rest out
    | some lead =>
      statsLoop st today rest
        { total := out.total + 1
          hot := if 18 ≤ lead.lead_score then out.hot + 1 else out.hot
          warm := if 18 ≤ lead.lead_score then out.warm
            else if 12 ≤ lead.lead_score then out.warm + 1 else out.warm
          new_this_session := if lead.date_added = today
            then out.new_this_session + 1 else out.new_this_session }

/-- `GET /api/stats`.  `.error` stands for any storage failure thrown inside
the `try`, which the catch-all (stats route lines 39-42) converts to the
all-zero body; an empty (or absent) `leads:ids` set returns the all-zero
body early (lines 8-10); otherwise the counting loop runs over the stored
ids.  Every path returns a success response with numeric counts — the
handler's return type has no error alternative. -/
def statsGET (store : Except Unit Store) (today : String) : StatsOut :=
  match store with
  | .error _ => { total := 0, hot := 0, warm := 0, new_this_session := 0 }
  | .ok st =>
    if (st.map Prod.fst).isEmpty then
      { total := 0, hot := 0, warm := 0, new_this_session := 0 }
    else
      statsLoop st today (st.map Prod.fst)
        { total := 0, hot := 0, warm := 0, new_this_session := 0 }

/-- **C10.** The stats handler is a total function into numeric counts (it
never surfaces an error); a storage failure and an empty store both produce
the all-zero body, so the two are indistinguishable to the caller. -/
theorem C10_stats_never_errors (today : String) :
    statsGET (.error ()) today = ⟨0, 0, 0, 0⟩ ∧
    statsGET (.ok []) today = ⟨0, 0, 0, 0⟩ ∧
    statsGET (.error ()) today = statsGET (.ok []) today :=
  ⟨rfl, rfl, rfl⟩
